import Mathlib

/-!
Verification development for the trans-sahara-prototype quantitative
estimation engine (src/src/pages/agroforestry_analysis.py, with a
near-duplicate of the self-sufficiency and crop-area logic in
src/src/pages/wefe_analysis.py).

Modelling conventions:
* Python floats are embedded as exact rationals; the float literal
  52.1429 becomes 521429/10000 and 1e-6 becomes 1/1000000.
* A JSON field that may be missing or non-numeric is embedded as
  Option Rat with none standing for "missing or non-numeric"; the code
  paths that coerce such values to 0 via float(x or 0) are embedded
  through getQ (Option.getD 0), and the paths that test
  isinstance(x, (int, float)) and x > 0 are embedded through posNum.
* Python dictionaries with string keys are embedded as association
  lists (List (String × Rat)) with a default-0 lookup, matching
  dict.get(key, 0); the accumulating crop-area dictionary is embedded
  as a function String → Rat built by pointwise update, matching
  d[k] = d.get(k, 0.0) + v.
* The module-level randomness of _calculate_productivity_increase_percent
  (random.uniform) is made explicit: the unit draw of the generator is an
  extra argument of the embedded function.
-/

set_option linter.unusedVariables false

namespace TransSahara

/-- Python max(0.0, min(1.0, x)). -/
def clamp01 (x : ℚ) : ℚ := max 0 (min 1 x)

/-- Python guard isinstance(x, (int, float)) and x > 0, over the
Option-ℚ embedding of a loosely typed JSON value. -/
def posNum : Option ℚ → Bool
  | some v => decide (0 < v)
  | none => false

/-- Python float(x or 0) over the Option-ℚ embedding: a missing value
is coerced to 0. -/
def getQ (x : Option ℚ) : ℚ := x.getD 0

/-- Python dict.get(key, 0) over an association-list embedding of a
string-keyed mapping of numbers. -/
def lookupD (m : List (String × ℚ)) (k : String) : ℚ :=
  match m.find? (fun kv => kv.fst == k) with
  | some kv => kv.snd
  | none => 0

/-- The per-crop agronomic record (data/crops.json entry), restricted to
the fields the calculator reads. Each field is optional because the
source accesses them with dict.get and validates with isinstance. -/
structure CropInfo where
  space_m2_per_seed : Option ℚ
  yield_period_days : Option ℚ
  average_yield_g_per_week : Option ℚ

/-- The annual yield per m² computed inside _compute_self_sufficiency
(agroforestry_analysis.py lines 163-167, duplicated at
wefe_analysis.py lines 159-164): plants per m², weeks per cycle,
cycles per year with the 1e-6 epsilon guard, annual yield per plant,
and finally yield per m². -/
def annualYieldPerM2 (space weekly_yield_g yield_days : ℚ) : ℚ :=
  let plants_per_m2 := 1 / space
  let weeks_per_cycle := yield_days / 7
  let cycles_per_year := (521429 / 10000 : ℚ) / max weeks_per_cycle (1 / 1000000)
  let annual_yield_per_plant_kg := (weekly_yield_g / 1000) * weeks_per_cycle * cycles_per_year
  plants_per_m2 * annual_yield_per_plant_kg

/-- Embedding of _compute_self_sufficiency (agroforestry_analysis.py
lines 156-169). Returns none exactly on the two early-return guards of
the source; otherwise the clamped percentage. The crop_name argument is
kept because the source function receives it (it never reads it). -/
def compute_self_sufficiency (crop_name : String) (crop_info : CropInfo)
    (area_m2 : ℚ) (annual_consumption_kg weekly_yield_g : Option ℚ) : Option ℚ :=
  if area_m2 ≤ 0 ∨ posNum annual_consumption_kg = false then none
  else if posNum crop_info.space_m2_per_seed = false ∨ posNum weekly_yield_g = false
      ∨ posNum crop_info.yield_period_days = false then none
  else
    let annual_yield_per_m2_kg :=
      annualYieldPerM2 (getQ crop_info.space_m2_per_seed) (getQ weekly_yield_g)
        (getQ crop_info.yield_period_days)
    let total_production_kg := annual_yield_per_m2_kg * area_m2
    some (max 0 (total_production_kg / getQ annual_consumption_kg * 100))

/-- One crop_distribution entry of a site record. The name may be
missing or non-string (embedded as none); the share may be missing
(coerced to 0 by the source through float(x or 0)). -/
structure CropDist where
  name : Option String
  green_share_percent : Option ℚ

/-- A site properties record (GeoJSON feature properties with
role == "site", or a lab.json sites entry; both shapes are read through
the same dict.get accesses). surface_m3 is the source dataset label for
what is semantically an area in m². -/
structure SiteProps where
  name : Option String
  surface_m3 : Option ℚ
  land_cover_percent : List (String × ℚ)
  crop_distribution : List CropDist

/-- Embedding of _compute_affected_land_m2 (agroforestry_analysis.py
lines 37-54). The Option on site_props embeds the falsy-dict early
return (if not site_props: return 0.0). -/
def compute_affected_land_m2 (site_props : Option SiteProps)
    (affected_land_types : List String) : ℚ :=
  match site_props with
  | none => 0
  | some sp =>
    let total_area_m2 := getQ sp.surface_m3
    let percent_sum := (affected_land_types.map (fun t => lookupD sp.land_cover_percent t)).sum
    let fraction := clamp01 (percent_sum / 100)
    total_area_m2 * fraction

/-- The five impact metrics of one evaluation (the dict built by
compute_for_site, minus the display-only site name). -/
structure Impacts where
  affected_m2 : ℚ
  total_cost_usd : ℚ
  saved_water_m3_per_year : ℚ
  saved_energy_kwh_per_year : ℚ
  carbon_sequestration_kgco2e_per_year : ℚ

/-- Embedding of compute_for_site (agroforestry_analysis.py lines
265-278). affected_types and unit_cost are the enclosing-scope values of
the selected strategy, passed here as parameters. -/
def compute_for_site (affected_types : List String) (unit_cost : ℚ) (props : SiteProps)
    (water_l_per_m2 energy_kwh_per_m3 carbon_kgco2e_per_m2 : ℚ) : Impacts :=
  let affected_m2 := compute_affected_land_m2 (some props) affected_types
  let total_cost := affected_m2 * unit_cost
  let saved_water_m3 := (affected_m2 * water_l_per_m2) / 1000
  let saved_energy_kwh := saved_water_m3 * energy_kwh_per_m3
  let carbon_kgco2e := affected_m2 * carbon_kgco2e_per_m2
  ⟨affected_m2, total_cost, saved_water_m3, saved_energy_kwh, carbon_kgco2e⟩

/-- The assumptions snapshot stored inside a strategy application
(agroforestry_analysis.py lines 356-361). -/
structure Assumptions where
  water_gain_l_per_m2 : Option ℚ
  energy_saved_kwh_per_m3 : Option ℚ
  carbon_seq_kgco2e_per_m2 : Option ℚ
  productivity_increase_percent : Option ℚ

/-- A StrategyApplication record as appended to
st.session_state.agro_applied_strategies (lines 350-362). -/
structure StrategyApplication where
  strategy_key : Option String
  strategy_name : Option String
  target : Option String
  affected_types : List String
  unit_cost : Option ℚ
  assumptions : Assumptions

/-- Scope resolution inside aggregate_impacts (lines 428-431): the
literal target "ALL" selects every site, any other target filters the
site list by name equality. -/
def sitesForTarget (sites : List SiteProps) (target : Option String) : List SiteProps :=
  if target == some "ALL" then sites else sites.filter (fun s => s.name == target)

/-- The inner compute closure of aggregate_impacts (lines 416-426),
evaluated for one application at one site. -/
def aggAppSite (app : StrategyApplication) (sp : SiteProps) : Impacts :=
  let total_area_m2 := getQ sp.surface_m3
  let percent_sum := (app.affected_types.map (fun t => lookupD sp.land_cover_percent t)).sum
  let fraction := clamp01 (percent_sum / 100)
  let affected_m2 := total_area_m2 * fraction
  let total_cost := affected_m2 * getQ app.unit_cost
  let saved_water_m3 := (affected_m2 * getQ app.assumptions.water_gain_l_per_m2) / 1000
  let saved_energy_kwh := saved_water_m3 * getQ app.assumptions.energy_saved_kwh_per_m3
  let carbon_kgco2e := affected_m2 * getQ app.assumptions.carbon_seq_kgco2e_per_m2
  ⟨affected_m2, total_cost, saved_water_m3, saved_energy_kwh, carbon_kgco2e⟩

/-- Element-wise addition of the five metrics (the += accumulation into
the totals dict, lines 432-438). -/
def Impacts.add (x y : Impacts) : Impacts :=
  ⟨x.affected_m2 + y.affected_m2,
   x.total_cost_usd + y.total_cost_usd,
   x.saved_water_m3_per_year + y.saved_water_m3_per_year,
   x.saved_energy_kwh_per_year + y.saved_energy_kwh_per_year,
   x.carbon_sequestration_kgco2e_per_year + y.carbon_sequestration_kgco2e_per_year⟩

/-- The all-zero totals dict initialised at lines 400-406. -/
def Impacts.zero : Impacts := ⟨0, 0, 0, 0, 0⟩

/-- Embedding of aggregate_impacts (agroforestry_analysis.py lines
399-439): a fold over the applications, each resolving its own scope
against the live site list and accumulating per-site metrics. -/
def aggregate_impacts (sites_props_all : List SiteProps)
    (applications : List StrategyApplication) : Impacts :=
  applications.foldl
    (fun totals app =>
      (sitesForTarget sites_props_all app.target).foldl
        (fun t sp => t.add (aggAppSite app sp)) totals)
    Impacts.zero

/-- Embedding of the effective multiplier loop (agroforestry_analysis.py
lines 452-456): product over applications of
(1 + productivity_increase_percent / 100). -/
def effective_productivity_multiplier (apps : List StrategyApplication) : ℚ :=
  apps.foldl (fun m app => m * (1 + getQ app.assumptions.productivity_increase_percent / 100)) 1

/-- A minimal application record used for concrete scenarios: only the
productivity percentage is set. -/
def mkTestApp (p : ℚ) : StrategyApplication :=
  ⟨none, none, some "ALL", [], none, ⟨none, none, none, some p⟩⟩

/-- Embedding of the scope guard of _compute_crop_area_map (line 142):
the site is skipped when the scope name is truthy (not none, not the
empty string) and differs from the site name. -/
def scopeSkips (scope : Option String) (site_name : Option String) : Bool :=
  match scope with
  | none => false
  | some s => !(s == "") && !(site_name == some s)

/-- One crop_distribution entry folded into the accumulating dict
(lines 147-152), with the dict embedded as a function String → ℚ. -/
def distStep (green_area_m2 : ℚ) (acc : String → ℚ) (d : CropDist) : String → ℚ :=
  match d.name with
  | none => acc
  | some n =>
    if n.toLower = "unused greenland" then acc
    else fun k =>
      if k = n then acc n + green_area_m2 * clamp01 (getQ d.green_share_percent / 100)
      else acc k

/-- One site folded into the accumulating dict (lines 141-152). -/
def siteStep (scope_site_name : Option String) (acc : String → ℚ) (site : SiteProps) :
    String → ℚ :=
  if scopeSkips scope_site_name site.name then acc
  else
    let total_area_m2 := getQ site.surface_m3
    let green_pct := lookupD site.land_cover_percent "green"
    let green_area_m2 := total_area_m2 * clamp01 (green_pct / 100)
    site.crop_distribution.foldl (distStep green_area_m2) acc

/-- Embedding of _compute_crop_area_map (agroforestry_analysis.py lines
138-153, duplicated at wefe_analysis.py lines 124-136), as the lookup
function of the resulting dict with default 0 (the callers read it with
crop_area_map.get(crop, 0)). -/
def compute_crop_area_map (lab_sites : List SiteProps) (scope_site_name : Option String) :
    String → ℚ :=
  lab_sites.foldl (siteStep scope_site_name) (fun k => 0)

/-- Embedding of _calculate_productivity_increase_percent
(agroforestry_analysis.py lines 102-105): random.uniform(5.0, 100.0),
which is 5 + (100 - 5) * u for the unit draw u of the pseudo-random
generator; the draw is made an explicit argument because the embedding
is pure. -/
def calculate_productivity_increase_percent (crop_name scope : String) (u : ℚ) : ℚ :=
  5 + (100 - 5) * u

/-- Spec-side matcher for crop_distribution entries: the entry name must
equal the crop name case-sensitively, and entries named
"Unused Greenland" (case-insensitively) are excluded. -/
def cropMatches (crop : String) (d : CropDist) : Bool :=
  match d.name with
  | some n => decide (n = crop) && !(decide (n.toLower = "unused greenland"))
  | none => false

/-- Spec-side per-site allocated area for one crop: the sum over
matching crop_distribution entries of
surface * clamp(green_percent/100, 0, 1) * clamp(green_share_percent/100, 0, 1). -/
def cropAreaSpecSite (site : SiteProps) (crop : String) : ℚ :=
  ((site.crop_distribution.filter (cropMatches crop)).map
    (fun d => getQ site.surface_m3 * clamp01 (lookupD site.land_cover_percent "green" / 100)
        * clamp01 (getQ d.green_share_percent / 100))).sum

/-- Spec-side allocated area for one crop over a list of sites. -/
def cropAreaSpecTotal (sites : List SiteProps) (crop : String) : ℚ :=
  (sites.map (fun s => cropAreaSpecSite s crop)).sum

/-- All five metric fields are non-negative. -/
def Impacts.Nonneg (r : Impacts) : Prop :=
  0 ≤ r.affected_m2 ∧ 0 ≤ r.total_cost_usd ∧ 0 ≤ r.saved_water_m3_per_year
    ∧ 0 ≤ r.saved_energy_kwh_per_year ∧ 0 ≤ r.carbon_sequestration_kgco2e_per_year

/-- The numeric inputs snapshotted in an application are non-negative. -/
def StrategyApplication.NonnegInputs (app : StrategyApplication) : Prop :=
  0 ≤ getQ app.unit_cost ∧ 0 ≤ getQ app.assumptions.water_gain_l_per_m2
    ∧ 0 ≤ getQ app.assumptions.energy_saved_kwh_per_m3
    ∧ 0 ≤ getQ app.assumptions.carbon_seq_kgco2e_per_m2

/-- Element-wise sum of the images of a list, the zero-initialised fold. -/
def sumWith {α : Type} (f : α → Impacts) (l : List α) : Impacts :=
  l.foldl (fun t x => t.add (f x)) Impacts.zero

-- ---- Helper lemmas ----

theorem clamp01_nonneg (x : ℚ) : 0 ≤ clamp01 x := le_max_left 0 _

theorem clamp01_le_one (x : ℚ) : clamp01 x ≤ 1 :=
  max_le (by norm_num) (min_le_left 1 x)

theorem Impacts.zero_add (x : Impacts) : Impacts.zero.add x = x := by
  cases x; simp [Impacts.add, Impacts.zero]

theorem Impacts.add_zero (x : Impacts) : x.add Impacts.zero = x := by
  cases x; simp [Impacts.add, Impacts.zero]

theorem Impacts.add_assoc (x y z : Impacts) : (x.add y).add z = x.add (y.add z) := by
  cases x; cases y; cases z
  simp only [Impacts.add, Impacts.mk.injEq]
  refine ⟨?_, ?_, ?_, ?_, ?_⟩ <;> ring

theorem foldl_add_shift {α : Type} (f : α → Impacts) :
    ∀ (l : List α) (init : Impacts),
      l.foldl (fun t x => t.add (f x)) init = init.add (sumWith f l) := by
  intro l
  induction l with
  | nil => intro init; simp [sumWith, Impacts.add_zero]
  | cons x xs ih =>
    intro init
    simp only [List.foldl_cons, sumWith] at *
    rw [ih, ih (Impacts.zero.add (f x)), Impacts.zero_add, Impacts.add_assoc]

theorem sumWith_cons {α : Type} (f : α → Impacts) (x : α) (xs : List α) :
    sumWith f (x :: xs) = (f x).add (sumWith f xs) := by
  show (x :: xs).foldl (fun t y => t.add (f y)) Impacts.zero = _
  rw [List.foldl_cons, foldl_add_shift, Impacts.zero_add]

theorem sumWith_append {α : Type} (f : α → Impacts) (A B : List α) :
    sumWith f (A ++ B) = (sumWith f A).add (sumWith f B) := by
  show (A ++ B).foldl (fun t y => t.add (f y)) Impacts.zero = _
  rw [List.foldl_append, foldl_add_shift]
  rfl

theorem Impacts.Nonneg.add {x y : Impacts} (hx : x.Nonneg) (hy : y.Nonneg) :
    (x.add y).Nonneg := by
  obtain ⟨h1, h2, h3, h4, h5⟩ := hx
  obtain ⟨g1, g2, g3, g4, g5⟩ := hy
  exact ⟨add_nonneg h1 g1, add_nonneg h2 g2, add_nonneg h3 g3,
    add_nonneg h4 g4, add_nonneg h5 g5⟩

theorem Impacts.zero_nonneg : Impacts.zero.Nonneg := by
  refine ⟨le_refl 0, le_refl 0, le_refl 0, le_refl 0, le_refl 0⟩

theorem sumWith_nonneg {α : Type} (f : α → Impacts) (l : List α)
    (h : ∀ x ∈ l, (f x).Nonneg) : (sumWith f l).Nonneg := by
  induction l with
  | nil => exact Impacts.zero_nonneg
  | cons x xs ih =>
    rw [sumWith_cons]
    exact Impacts.Nonneg.add (h x (List.mem_cons_self x xs))
      (ih (fun y hy => h y (List.mem_cons_of_mem x hy)))

theorem aggregate_foldl_ext (sites : List SiteProps) :
    ∀ (apps : List StrategyApplication) (init : Impacts),
      apps.foldl (fun totals app =>
        (sitesForTarget sites app.target).foldl (fun t sp => t.add (aggAppSite app sp)) totals)
          init
      = apps.foldl (fun totals app =>
          totals.add (sumWith (aggAppSite app) (sitesForTarget sites app.target))) init := by
  intro apps
  induction apps with
  | nil => intro init; rfl
  | cons a l ih =>
    intro init
    simp only [List.foldl_cons]
    rw [foldl_add_shift, ih]

/-- Aggregation is the element-wise sum, over the applications, of the
per-application per-site metric sums. -/
theorem aggregate_impacts_eq (sites : List SiteProps) (apps : List StrategyApplication) :
    aggregate_impacts sites apps
      = sumWith (fun app => sumWith (aggAppSite app) (sitesForTarget sites app.target)) apps := by
  unfold aggregate_impacts
  rw [aggregate_foldl_ext]
  rfl

theorem epm_foldl_shift :
    ∀ (l : List StrategyApplication) (init : ℚ),
      l.foldl (fun m app => m * (1 + getQ app.assumptions.productivity_increase_percent / 100))
          init
        = init * effective_productivity_multiplier l := by
  intro l
  induction l with
  | nil => intro init; simp [effective_productivity_multiplier]
  | cons x xs ih =>
    intro init
    simp only [effective_productivity_multiplier, List.foldl_cons]
    rw [ih, ih (1 * (1 + getQ x.assumptions.productivity_increase_percent / 100))]
    ring

theorem effective_productivity_multiplier_cons (a : StrategyApplication)
    (l : List StrategyApplication) :
    effective_productivity_multiplier (a :: l)
      = (1 + getQ a.assumptions.productivity_increase_percent / 100)
          * effective_productivity_multiplier l := by
  calc effective_productivity_multiplier (a :: l)
      = l.foldl (fun m app => m * (1 + getQ app.assumptions.productivity_increase_percent / 100))
          (1 * (1 + getQ a.assumptions.productivity_increase_percent / 100)) := rfl
    _ = (1 * (1 + getQ a.assumptions.productivity_increase_percent / 100))
          * effective_productivity_multiplier l := epm_foldl_shift l _
    _ = (1 + getQ a.assumptions.productivity_increase_percent / 100)
          * effective_productivity_multiplier l := by ring

/-- Rearrangement of the annual-yield formula isolating the weekly
yield factor. -/
theorem annualYieldPerM2_eq_mul (space wy yd : ℚ) :
    annualYieldPerM2 space wy yd
      = wy * ((yd / 7) * ((521429 / 10000) / max (yd / 7) (1 / 1000000)) / (1000 * space)) := by
  unfold annualYieldPerM2
  ring

/-- Rearrangement of the annual-yield formula isolating the per-seed
space divisor. -/
theorem annualYieldPerM2_eq_div (space wy yd : ℚ) :
    annualYieldPerM2 space wy yd
      = wy * ((yd / 7) * ((521429 / 10000) / max (yd / 7) (1 / 1000000))) / 1000 / space := by
  unfold annualYieldPerM2
  ring

theorem yieldFactor_pos (space yd : ℚ) (hs : 0 < space) (hy : 0 < yd) :
    0 < (yd / 7) * ((521429 / 10000) / max (yd / 7) (1 / 1000000)) / (1000 * space) := by
  have h1 : (0:ℚ) < yd / 7 := by positivity
  have h2 : (0:ℚ) < max (yd / 7) (1 / 1000000) := lt_max_of_lt_right (by norm_num)
  have h3 : (0:ℚ) < (521429 / 10000) / max (yd / 7) (1 / 1000000) := by
    exact div_pos (by norm_num) h2
  exact div_pos (mul_pos h1 h3) (by positivity)

theorem annualYieldPerM2_pos (space wy yd : ℚ) (hs : 0 < space) (hw : 0 < wy) (hy : 0 < yd) :
    0 < annualYieldPerM2 space wy yd := by
  rw [annualYieldPerM2_eq_mul]
  exact mul_pos hw (yieldFactor_pos space yd hs hy)

/-- On the all-guards-pass branch, the operation returns the raw
percentage (the max-with-0 clamp is inactive because the value is
positive). -/
theorem compute_self_sufficiency_pos_eval (name : String) (avg : Option ℚ)
    (space yd area cons wy : ℚ) (hs : 0 < space) (hy : 0 < yd) (hw : 0 < wy)
    (ha : 0 < area) (hc : 0 < cons) :
    compute_self_sufficiency name ⟨some space, some yd, avg⟩ area (some cons) (some wy)
      = some (annualYieldPerM2 space wy yd * area / cons * 100) := by
  have hval : 0 < annualYieldPerM2 space wy yd * area / cons * 100 := by
    have := annualYieldPerM2_pos space wy yd hs hw hy
    positivity
  unfold compute_self_sufficiency
  rw [if_neg, if_neg]
  · simp only [getQ, Option.getD_some]
    rw [max_eq_right hval.le]
  · simp only [posNum, not_or]
    refine ⟨?_, ?_, ?_⟩ <;> simp [hs, hw, hy]
  · simp only [posNum, not_or]
    refine ⟨?_, ?_⟩ <;> simp [ha.not_le, hc]

-- ---- Claim theorems ----

/-- C1: for every crop whose space_m2_per_seed, average_yield_g_per_week
and yield_period_days are positive with yield_period_days/7 at least
1e-6, the annual yield per m² computed inside _compute_self_sufficiency
equals (average_yield_g_per_week/1000) * 52.1429 / space_m2_per_seed,
independently of yield_period_days (the weeks_per_cycle and
cycles_per_year factors cancel); and for space 0.25, weekly yield 200 g,
70-day cycles, 100 m² and 500 kg/year consumption the returned
self-sufficiency is exactly 521429/625 = 834.2864 percent, within 0.05
of 834.3 (hence within rounding of 834). -/
theorem C1_annual_yield_cancellation :
    (∀ space wy yd : ℚ, 0 < space → 0 < wy → 0 < yd → (1 / 1000000 : ℚ) ≤ yd / 7 →
      annualYieldPerM2 space wy yd = (wy / 1000) * (521429 / 10000) / space)
    ∧ compute_self_sufficiency "Generic" ⟨some (1/4), some 70, some 200⟩ 100 (some 500) (some 200)
        = some (521429 / 625)
    ∧ |(521429 : ℚ) / 625 - 8343 / 10| < 1 / 20 := by
  refine ⟨?_, ?_, by rw [abs_lt]; norm_num⟩
  · intro space wy yd hs hw hy he
    rw [annualYieldPerM2_eq_mul, max_eq_left he]
    have h7 : yd / 7 ≠ 0 := by positivity
    field_simp
    ring
  · norm_num [compute_self_sufficiency, annualYieldPerM2, posNum, getQ, max_def]

/-- C1 witness: the cancellation equation instantiated at a concrete
crop (space 2 m²/seed, 300 g/week, 14-day cycles). -/
theorem C1_annual_yield_cancellation_witness :
    annualYieldPerM2 2 300 14 = (300 / 1000) * (521429 / 10000) / 2 :=
  C1_annual_yield_cancellation.1 2 300 14 (by norm_num) (by norm_num) (by norm_num) (by norm_num)

/-- C2: the effective productivity multiplier is the product over the
applied strategies of (1 + productivity_increase_percent/100): 1 for the
empty list, (1 + p/100)^N when all N applications carry percentage p,
and 33/25 = 1.32 (compounded, not the additive 1.30) for two
applications with increases 20 and 10. -/
theorem C2_effective_multiplier :
    effective_productivity_multiplier [] = 1
    ∧ (∀ (p : ℚ) (apps : List StrategyApplication),
        (∀ a ∈ apps, a.assumptions.productivity_increase_percent = some p) →
        effective_productivity_multiplier apps = (1 + p / 100) ^ apps.length)
    ∧ effective_productivity_multiplier [mkTestApp 20, mkTestApp 10] = 33 / 25 := by
  refine ⟨rfl, ?_, ?_⟩
  · intro p apps h
    induction apps with
    | nil => simp [effective_productivity_multiplier]
    | cons a l ih =>
      rw [effective_productivity_multiplier_cons,
        ih (fun x hx => h x (List.mem_cons_of_mem a hx)),
        h a (List.mem_cons_self a l), List.length_cons, pow_succ]
      simp only [getQ, Option.getD_some]
      ring
  · norm_num [effective_productivity_multiplier, mkTestApp, getQ]

/-- C2 witness: three applications, each with percentage 50, compound to
(3/2)³. -/
theorem C2_effective_multiplier_witness :
    effective_productivity_multiplier [mkTestApp 50, mkTestApp 50, mkTestApp 50]
      = (1 + 50 / 100) ^ ([mkTestApp 50, mkTestApp 50, mkTestApp 50] :
          List StrategyApplication).length :=
  C2_effective_multiplier.2.1 50 [mkTestApp 50, mkTestApp 50, mkTestApp 50]
    (by intro a ha; fin_cases ha <;> rfl)

/-- C5: the self-sufficiency operation returns none (undefined) exactly
when the area is non-positive, the consumption is missing, non-numeric
or non-positive, or any of spacing, weekly yield and cycle length is
missing, non-numeric or non-positive (posNum x = false embeds exactly
that); every defined result equals
max 0 (total production / consumption * 100), hence is never negative
and carries no upper clamp; and results above 100 percent occur. -/
theorem C5_undefined_iff_nonneg_unclamped :
    (∀ (name : String) (info : CropInfo) (area : ℚ) (cons wy : Option ℚ),
      compute_self_sufficiency name info area cons wy = none ↔
        area ≤ 0 ∨ posNum cons = false ∨ posNum info.space_m2_per_seed = false
          ∨ posNum wy = false ∨ posNum info.yield_period_days = false)
    ∧ (∀ (name : String) (info : CropInfo) (area : ℚ) (cons wy : Option ℚ) (r : ℚ),
        compute_self_sufficiency name info area cons wy = some r →
          0 ≤ r ∧ r = max 0 (annualYieldPerM2 (getQ info.space_m2_per_seed) (getQ wy)
            (getQ info.yield_period_days) * area / getQ cons * 100))
    ∧ (∃ r : ℚ,
        compute_self_sufficiency "Tomato" ⟨some 1, some 7, some 100⟩ 10 (some 1) (some 100)
          = some r ∧ 100 < r) := by
  refine ⟨?_, ?_, ?_⟩
  · intro name info area cons wy
    unfold compute_self_sufficiency
    split_ifs with h1 h2
    · exact iff_of_true rfl (by tauto)
    · exact iff_of_true rfl (by tauto)
    · exact iff_of_false (by simp) (by tauto)
  · intro name info area cons wy r h
    unfold compute_self_sufficiency at h
    split_ifs at h
    simp only [Option.some.injEq] at h
    subst h
    exact ⟨le_max_left 0 _, rfl⟩
  · refine ⟨521429 / 100, ?_, by norm_num⟩
    norm_num [compute_self_sufficiency, annualYieldPerM2, posNum, getQ, max_def]

/-- C5 witness: the defined-result clause instantiated at a concrete
crop where the operation yields 5214.29 percent. -/
theorem C5_undefined_iff_nonneg_unclamped_witness :
    0 ≤ (521429 : ℚ) / 100 ∧ (521429 : ℚ) / 100
      = max 0 (annualYieldPerM2 (getQ (some 1)) (getQ (some 100)) (getQ (some 7))
          * 10 / getQ (some 1) * 100) :=
  C5_undefined_iff_nonneg_unclamped.2.1 "Tomato" ⟨some 1, some 7, some 100⟩ 10 (some 1)
    (some 100) (521429 / 100)
    (by norm_num [compute_self_sufficiency, annualYieldPerM2, posNum, getQ, max_def])

/-- C9: for positive spacing, weekly yield, cycle length, area and
consumption, the annual yield per m² computed inside
_compute_self_sufficiency — and with it the self-sufficiency result —
is strictly increasing in the weekly yield and strictly decreasing in
the per-seed space. -/
theorem C9_strict_monotonicity :
    ∀ (name : String) (avg : Option ℚ) (space space2 wy wy2 yd area cons : ℚ),
      0 < space → 0 < space2 → 0 < wy → 0 < wy2 → 0 < yd → 0 < area → 0 < cons →
      ((wy < wy2 → annualYieldPerM2 space wy yd < annualYieldPerM2 space wy2 yd)
       ∧ (space < space2 → annualYieldPerM2 space2 wy yd < annualYieldPerM2 space wy yd)
       ∧ (wy < wy2 → ∃ r1 r2 : ℚ,
            compute_self_sufficiency name ⟨some space, some yd, avg⟩ area (some cons) (some wy)
              = some r1
            ∧ compute_self_sufficiency name ⟨some space, some yd, avg⟩ area (some cons)
                (some wy2) = some r2
            ∧ r1 < r2)
       ∧ (space < space2 → ∃ r1 r2 : ℚ,
            compute_self_sufficiency name ⟨some space2, some yd, avg⟩ area (some cons) (some wy)
              = some r1
            ∧ compute_self_sufficiency name ⟨some space, some yd, avg⟩ area (some cons)
                (some wy) = some r2
            ∧ r1 < r2)) := by
  intro name avg space space2 wy wy2 yd area cons hs hs2 hw hw2 hy ha hc
  have hmono_wy : wy < wy2 → annualYieldPerM2 space wy yd < annualYieldPerM2 space wy2 yd := by
    intro h
    rw [annualYieldPerM2_eq_mul, annualYieldPerM2_eq_mul]
    exact mul_lt_mul_of_pos_right h (yieldFactor_pos space yd hs hy)
  have hmono_sp : space < space2 →
      annualYieldPerM2 space2 wy yd < annualYieldPerM2 space wy yd := by
    intro h
    rw [annualYieldPerM2_eq_div, annualYieldPerM2_eq_div]
    have hnum : 0 < wy * ((yd / 7) * ((521429 / 10000) / max (yd / 7) (1 / 1000000))) / 1000 := by
      have h2 : (0:ℚ) < max (yd / 7) (1 / 1000000) := lt_max_of_lt_right (by norm_num)
      have h1 : (0:ℚ) < yd / 7 := by positivity
      have h3 : (0:ℚ) < (521429 / 10000) / max (yd / 7) (1 / 1000000) :=
        div_pos (by norm_num) h2
      positivity
    exact div_lt_div_of_pos_left hnum hs h
  refine ⟨hmono_wy, hmono_sp, ?_, ?_⟩
  · intro h
    refine ⟨annualYieldPerM2 space wy yd * area / cons * 100,
      annualYieldPerM2 space wy2 yd * area / cons * 100,
      compute_self_sufficiency_pos_eval name avg space yd area cons wy hs hy hw ha hc,
      compute_self_sufficiency_pos_eval name avg space yd area cons wy2 hs hy hw2 ha hc, ?_⟩
    have := hmono_wy h
    gcongr
  · intro h
    refine ⟨annualYieldPerM2 space2 wy yd * area / cons * 100,
      annualYieldPerM2 space wy yd * area / cons * 100,
      compute_self_sufficiency_pos_eval name avg space2 yd area cons wy hs2 hy hw ha hc,
      compute_self_sufficiency_pos_eval name avg space yd area cons wy hs hy hw ha hc, ?_⟩
    have := hmono_sp h
    gcongr

/-- C9 witness: doubling the weekly yield at space 1/2, 7-day cycles,
10 m² and 5 kg consumption strictly increases both figures. -/
theorem C9_strict_monotonicity_witness :
    ((100 : ℚ) < 200 → annualYieldPerM2 (1/2) 100 7 < annualYieldPerM2 (1/2) 200 7)
    ∧ ((1/2 : ℚ) < 1 → annualYieldPerM2 1 100 7 < annualYieldPerM2 (1/2) 100 7)
    ∧ ((100 : ℚ) < 200 → ∃ r1 r2 : ℚ,
        compute_self_sufficiency "Okra" ⟨some (1/2), some 7, none⟩ 10 (some 5) (some 100)
          = some r1
        ∧ compute_self_sufficiency "Okra" ⟨some (1/2), some 7, none⟩ 10 (some 5) (some 200)
          = some r2
        ∧ r1 < r2)
    ∧ ((1/2 : ℚ) < 1 → ∃ r1 r2 : ℚ,
        compute_self_sufficiency "Okra" ⟨some 1, some 7, none⟩ 10 (some 5) (some 100) = some r1
        ∧ compute_self_sufficiency "Okra" ⟨some (1/2), some 7, none⟩ 10 (some 5) (some 100)
          = some r2
        ∧ r1 < r2) :=
  C9_strict_monotonicity "Okra" none (1/2) 1 100 200 7 10 5 (by norm_num) (by norm_num)
    (by norm_num) (by norm_num) (by norm_num) (by norm_num) (by norm_num)

/-- C10: the crop_name argument of _compute_self_sufficiency has no
influence on its result; all crop-specific behaviour enters through the
other arguments. -/
theorem C10_crop_name_has_no_influence :
    ∀ (n1 n2 : String) (info : CropInfo) (area : ℚ) (cons wy : Option ℚ),
      compute_self_sufficiency n1 info area cons wy
        = compute_self_sufficiency n2 info area cons wy := by
  intro n1 n2 info area cons wy
  rfl

/-- C3: aggregation over applied strategies is linear in the
application list: against a fixed site set, each of the five metric
fields of aggregate_impacts over A ++ B is the sum of the corresponding
fields for A and for B; consequently aggregating after removing the
element at index i equals the element-wise sum of the aggregates of the
elements before i and after i, i.e. aggregating the list with that
element excluded. -/
theorem C3_aggregation_linearity :
    ∀ sites : List SiteProps,
      (∀ A B : List StrategyApplication,
        (aggregate_impacts sites (A ++ B)).affected_m2
            = (aggregate_impacts sites A).affected_m2
              + (aggregate_impacts sites B).affected_m2
        ∧ (aggregate_impacts sites (A ++ B)).total_cost_usd
            = (aggregate_impacts sites A).total_cost_usd
              + (aggregate_impacts sites B).total_cost_usd
        ∧ (aggregate_impacts sites (A ++ B)).saved_water_m3_per_year
            = (aggregate_impacts sites A).saved_water_m3_per_year
              + (aggregate_impacts sites B).saved_water_m3_per_year
        ∧ (aggregate_impacts sites (A ++ B)).saved_energy_kwh_per_year
            = (aggregate_impacts sites A).saved_energy_kwh_per_year
              + (aggregate_impacts sites B).saved_energy_kwh_per_year
        ∧ (aggregate_impacts sites (A ++ B)).carbon_sequestration_kgco2e_per_year
            = (aggregate_impacts sites A).carbon_sequestration_kgco2e_per_year
              + (aggregate_impacts sites B).carbon_sequestration_kgco2e_per_year)
      ∧ ∀ (l : List StrategyApplication) (i : ℕ),
          aggregate_impacts sites (l.eraseIdx i)
            = (aggregate_impacts sites (l.take i)).add
                (aggregate_impacts sites (l.drop (i + 1))) := by
  intro sites
  have key : ∀ X Y : List StrategyApplication,
      aggregate_impacts sites (X ++ Y)
        = (aggregate_impacts sites X).add (aggregate_impacts sites Y) := by
    intro X Y
    rw [aggregate_impacts_eq, aggregate_impacts_eq, aggregate_impacts_eq, sumWith_append]
  refine ⟨?_, ?_⟩
  · intro A B
    rw [key A B]
    simp [Impacts.add]
  · intro l i
    rw [List.eraseIdx_eq_take_drop_succ, key]

/-- C4: compute_for_site realises the reference formulas of the spec:
affected area is the site surface times the clamped affected-land-cover
fraction (unknown land-cover keys contribute 0 through the default-0
lookup), cost is affected area times unit cost, water saved is affected
area times the water coefficient over 1000, energy saved is derived from
the water figure (not independently from area), and carbon is affected
area times the carbon coefficient; the spec scenario (1000 m² site, 50
percent green cover, a green-only strategy at 2 USD/m²) gives 500 m²
affected and 1000 USD. -/
theorem C4_per_site_reference_formulas :
    (∀ (types : List String) (cost : ℚ) (props : SiteProps) (w e c : ℚ),
      (compute_for_site types cost props w e c).affected_m2
          = getQ props.surface_m3
            * clamp01 ((types.map (fun t => lookupD props.land_cover_percent t)).sum / 100)
      ∧ (compute_for_site types cost props w e c).total_cost_usd
          = (compute_for_site types cost props w e c).affected_m2 * cost
      ∧ (compute_for_site types cost props w e c).saved_water_m3_per_year
          = (compute_for_site types cost props w e c).affected_m2 * w / 1000
      ∧ (compute_for_site types cost props w e c).saved_energy_kwh_per_year
          = (compute_for_site types cost props w e c).saved_water_m3_per_year * e
      ∧ (compute_for_site types cost props w e c).carbon_sequestration_kgco2e_per_year
          = (compute_for_site types cost props w e c).affected_m2 * c)
    ∧ (∀ (m : List (String × ℚ)) (t : String),
        m.find? (fun kv => kv.fst == t) = none → lookupD m t = 0)
    ∧ ((compute_for_site ["green"] 2 ⟨some "S", some 1000, [("green", 50)], []⟩ 0 0 0).affected_m2
          = 500
       ∧ (compute_for_site ["green"] 2
            ⟨some "S", some 1000, [("green", 50)], []⟩ 0 0 0).total_cost_usd = 1000) := by
  refine ⟨?_, ?_, ?_⟩
  · intro types cost props w e c
    refine ⟨rfl, rfl, rfl, rfl, rfl⟩
  · intro m t h
    unfold lookupD
    rw [h]
  · constructor <;>
      norm_num [compute_for_site, compute_affected_land_m2, lookupD, clamp01, getQ,
        List.find?, max_def, min_def]

/-- C4 witness: the default-0 lookup clause at a mapping without the
requested key. -/
theorem C4_per_site_reference_formulas_witness :
    lookupD [("green", (50 : ℚ))] "water" = 0 :=
  C4_per_site_reference_formulas.2.1 [("green", (50 : ℚ))] "water" (by rfl)

/-- C7: with non-negative site surface, unit cost and assumption
coefficients, all five impact metrics are non-negative, both for a
single-site evaluation and for the aggregate over any applied-strategy
list. -/
theorem C7_nonnegativity :
    (∀ (types : List String) (cost : ℚ) (props : SiteProps) (w e c : ℚ),
      0 ≤ getQ props.surface_m3 → 0 ≤ cost → 0 ≤ w → 0 ≤ e → 0 ≤ c →
      (compute_for_site types cost props w e c).Nonneg)
    ∧ (∀ (sites : List SiteProps) (apps : List StrategyApplication),
        (∀ sp ∈ sites, 0 ≤ getQ sp.surface_m3) →
        (∀ app ∈ apps, app.NonnegInputs) →
        (aggregate_impacts sites apps).Nonneg) := by
  constructor
  · intro types cost props w e c hsurf hcost hw he hc
    have haff : 0 ≤ compute_affected_land_m2 (some props) types := by
      unfold compute_affected_land_m2
      exact mul_nonneg hsurf (clamp01_nonneg _)
    have hwater : 0 ≤ compute_affected_land_m2 (some props) types * w / 1000 :=
      div_nonneg (mul_nonneg haff hw) (by norm_num)
    exact ⟨haff, mul_nonneg haff hcost, hwater, mul_nonneg hwater he, mul_nonneg haff hc⟩
  · intro sites apps hsites happs
    rw [aggregate_impacts_eq]
    refine sumWith_nonneg _ apps (fun app hap => ?_)
    refine sumWith_nonneg _ _ (fun sp hsp => ?_)
    have hsurf : 0 ≤ getQ sp.surface_m3 := by
      refine hsites sp ?_
      unfold sitesForTarget at hsp
      split_ifs at hsp with h
      · exact hsp
      · exact List.mem_of_mem_filter hsp
    obtain ⟨hcost, hw, he, hc⟩ := happs app hap
    have haff : 0 ≤ getQ sp.surface_m3
        * clamp01 ((app.affected_types.map (fun t => lookupD sp.land_cover_percent t)).sum / 100) :=
      mul_nonneg hsurf (clamp01_nonneg _)
    have hwater : 0 ≤ getQ sp.surface_m3
        * clamp01 ((app.affected_types.map (fun t => lookupD sp.land_cover_percent t)).sum / 100)
        * getQ app.assumptions.water_gain_l_per_m2 / 1000 :=
      div_nonneg (mul_nonneg haff hw) (by norm_num)
    exact ⟨haff, mul_nonneg haff hcost, hwater, mul_nonneg hwater he, mul_nonneg haff hc⟩

/-- C7 witness: the single-site clause and the aggregate clause at a
concrete site and a concrete one-application list. -/
theorem C7_nonnegativity_witness :
    (compute_for_site ["green"] 2 ⟨some "S", some 1000, [("green", 50)], []⟩ 20 (1/5) (1/2)).Nonneg
    ∧ (aggregate_impacts [⟨some "S", some 1000, [("green", 50)], []⟩]
        [⟨some "k", some "n", some "ALL", ["green"], some 2,
          ⟨some 20, some (1/5), some (1/2), some 10⟩⟩]).Nonneg :=
  ⟨C7_nonnegativity.1 ["green"] 2 ⟨some "S", some 1000, [("green", 50)], []⟩ 20 (1/5) (1/2)
      (by norm_num [getQ]) (by norm_num) (by norm_num) (by norm_num) (by norm_num),
   C7_nonnegativity.2 [⟨some "S", some 1000, [("green", 50)], []⟩]
      [⟨some "k", some "n", some "ALL", ["green"], some 2,
        ⟨some 20, some (1/5), some (1/2), some 10⟩⟩]
      (by intro sp hsp; fin_cases hsp; norm_num [getQ])
      (by intro app hap; fin_cases hap
          exact ⟨by norm_num [getQ], by norm_num [getQ], by norm_num [getQ],
            by norm_num [getQ]⟩)⟩

/-- C8 counterexample: the claim that every calculator computation,
including the productivity-increase value, is a deterministic function
of its inputs plus the application list fails on the code:
_calculate_productivity_increase_percent calls random.uniform(5, 100),
so two evaluations with identical crop_name and scope (here the
snapshot call with crop_name "*" and scope "all sites", line 360) can
return different values because the pseudo-random generator advances
between them. -/
theorem C8_counterexample_random_placeholder :
    calculate_productivity_increase_percent "*" "all sites" 0
      ≠ calculate_productivity_increase_percent "*" "all sites" 1 := by
  norm_num [calculate_productivity_increase_percent]

/-- C8 amended: every calculator computation is a deterministic function
of its inputs, the application list, and the random draws consumed by
the productivity placeholder; the placeholder itself reads nothing but
its draw (crop_name and scope are ignored), distinct draws yield
distinct values (so the draw is a genuine extra input, refuting
determinism in the inputs alone), and over unit draws its value stays
within the documented 5..100 range. -/
theorem C8_amended_purity_modulo_draws :
    (∀ (n1 s1 n2 s2 : String) (u : ℚ),
      calculate_productivity_increase_percent n1 s1 u
        = calculate_productivity_increase_percent n2 s2 u)
    ∧ (∀ (n s : String) (u1 u2 : ℚ), u1 ≠ u2 →
        calculate_productivity_increase_percent n s u1
          ≠ calculate_productivity_increase_percent n s u2)
    ∧ (∀ (n s : String) (u : ℚ), 0 ≤ u → u ≤ 1 →
        5 ≤ calculate_productivity_increase_percent n s u
          ∧ calculate_productivity_increase_percent n s u ≤ 100) := by
  refine ⟨fun n1 s1 n2 s2 u => rfl, ?_, ?_⟩
  · intro n s u1 u2 hne
    unfold calculate_productivity_increase_percent
    intro h
    apply hne
    field_simp at h
    rcases h with h | h
    · exact h
    · norm_num at h
  · intro n s u hu0 hu1
    unfold calculate_productivity_increase_percent
    constructor <;> nlinarith

/-- C8 amended witness: concrete draws 0 and 1 at the snapshot call
site give distinct values, and the draw 1/2 lands inside 5..100. -/
theorem C8_amended_purity_modulo_draws_witness :
    (calculate_productivity_increase_percent "*" "all sites" (1/4)
      ≠ calculate_productivity_increase_percent "*" "all sites" (3/4))
    ∧ (5 ≤ calculate_productivity_increase_percent "*" "all sites" (1/2)
       ∧ calculate_productivity_increase_percent "*" "all sites" (1/2) ≤ 100) :=
  ⟨C8_amended_purity_modulo_draws.2.1 "*" "all sites" (1/4) (3/4) (by norm_num),
   C8_amended_purity_modulo_draws.2.2 "*" "all sites" (1/2) (by norm_num) (by norm_num)⟩

theorem distStep_foldl (green : ℚ) (crop : String) :
    ∀ (dists : List CropDist) (acc : String → ℚ),
      (dists.foldl (distStep green) acc) crop
        = acc crop + ((dists.filter (cropMatches crop)).map
            (fun d => green * clamp01 (getQ d.green_share_percent / 100))).sum := by
  intro dists
  induction dists with
  | nil => intro acc; simp
  | cons d rest ih =>
    intro acc
    simp only [List.foldl_cons]
    rw [ih]
    obtain ⟨dn, dshare⟩ := d
    cases dn with
    | none =>
      simp [distStep, cropMatches, List.filter_cons]
    | some n =>
      by_cases hu : n.toLower = "unused greenland"
      · simp [distStep, cropMatches, List.filter_cons, hu]
      · by_cases hk : crop = n
        · subst hk
          simp [distStep, cropMatches, List.filter_cons, hu]
          ring
        · have hk2 : ¬n = crop := fun h => hk h.symm
          simp [distStep, cropMatches, List.filter_cons, hu, hk, hk2]

/-- Evaluating one non-skipped site step at a crop adds exactly the
spec-side per-site allocation. -/
theorem siteStep_eval (scope : Option String) (acc : String → ℚ) (s : SiteProps) (crop : String)
    (hs : scopeSkips scope s.name = false) :
    siteStep scope acc s crop = acc crop + cropAreaSpecSite s crop := by
  unfold siteStep
  rw [hs]
  simp only [Bool.false_eq_true, if_false]
  rw [distStep_foldl]
  rfl

theorem siteStep_foldl (scope : Option String) (crop : String) :
    ∀ (sites : List SiteProps) (acc : String → ℚ),
      (sites.foldl (siteStep scope) acc) crop
        = acc crop + ((sites.filter (fun s => !(scopeSkips scope s.name))).map
            (fun s => cropAreaSpecSite s crop)).sum := by
  intro sites
  induction sites with
  | nil => intro acc; simp
  | cons s rest ih =>
    intro acc
    simp only [List.foldl_cons]
    rw [ih]
    cases hs : scopeSkips scope s.name with
    | true =>
      have hstep : siteStep scope acc s = acc := by
        unfold siteStep
        rw [hs]
        rfl
      rw [hstep, List.filter_cons]
      simp [hs]
    | false =>
      rw [siteStep_eval scope acc s crop hs, List.filter_cons]
      simp only [hs, Bool.not_false, if_true, List.map_cons, List.sum_cons]
      ring

/-- The crop-area map lookup is the spec-side sum over the non-skipped
sites. -/
theorem compute_crop_area_map_eval (sites : List SiteProps) (scope : Option String)
    (crop : String) :
    compute_crop_area_map sites scope crop
      = ((sites.filter (fun s => !(scopeSkips scope s.name))).map
          (fun s => cropAreaSpecSite s crop)).sum := by
  unfold compute_crop_area_map
  rw [siteStep_foldl]
  simp

/-- C6: for every site list and crop name, the allocated area read from
the crop-area map equals the sum, over the sites in scope, of
surface * clamp(green_cover/100, 0, 1) * clamp(green_share/100, 0, 1)
over the crop_distribution entries matching the crop name
case-sensitively (entries named "Unused Greenland" case-insensitively
excluded); an entry with non-positive share contributes 0; all-sites
scope sums every site and a single named-site scope restricts the sum
to the sites bearing that name. -/
theorem C6_crop_area_allocation :
    (∀ (sites : List SiteProps) (crop : String),
      compute_crop_area_map sites none crop = cropAreaSpecTotal sites crop)
    ∧ (∀ (sites : List SiteProps) (s crop : String), s ≠ "" →
        compute_crop_area_map sites (some s) crop
          = cropAreaSpecTotal (sites.filter (fun site => site.name == some s)) crop)
    ∧ (∀ (site : SiteProps) (d : CropDist), getQ d.green_share_percent ≤ 0 →
        getQ site.surface_m3 * clamp01 (lookupD site.land_cover_percent "green" / 100)
          * clamp01 (getQ d.green_share_percent / 100) = 0) := by
  refine ⟨?_, ?_, ?_⟩
  · intro sites crop
    rw [compute_crop_area_map_eval]
    unfold cropAreaSpecTotal
    congr 1
    rw [List.filter_eq_self.mpr]
    intro s hs
    simp [scopeSkips]
  · intro sites s crop hs
    rw [compute_crop_area_map_eval]
    unfold cropAreaSpecTotal
    congr 2
    refine List.filter_congr (fun site hsite => ?_)
    simp [scopeSkips, hs]
  · intro site d hd
    have : clamp01 (getQ d.green_share_percent / 100) = 0 := by
      unfold clamp01
      rw [min_eq_right, max_eq_left]
      · exact div_nonpos_of_nonpos_of_nonneg hd (by norm_num)
      · calc getQ d.green_share_percent / 100 ≤ 0 :=
              div_nonpos_of_nonpos_of_nonneg hd (by norm_num)
          _ ≤ 1 := by norm_num
    rw [this, mul_zero]

/-- C6 witness: the scoped clause at a two-site list where only the
site named A carries a Maize entry. -/
theorem C6_crop_area_allocation_witness :
    compute_crop_area_map
        [⟨some "A", some 1000, [("green", 50)], [⟨some "Maize", some 40⟩]⟩,
         ⟨some "B", some 600, [("green", 100)], [⟨some "Maize", some 10⟩]⟩]
        (some "A") "Maize"
      = cropAreaSpecTotal
          (List.filter (fun site => site.name == some "A")
            [⟨some "A", some 1000, [("green", 50)], [⟨some "Maize", some 40⟩]⟩,
             ⟨some "B", some 600, [("green", 100)], [⟨some "Maize", some 10⟩]⟩])
          "Maize" :=
  C6_crop_area_allocation.2.1
    [⟨some "A", some 1000, [("green", 50)], [⟨some "Maize", some 40⟩]⟩,
     ⟨some "B", some 600, [("green", 100)], [⟨some "Maize", some 10⟩]⟩]
    "A" "Maize" (by decide)

end TransSahara
